import Mathlib

/-!
Verification development for the xero-tooth-direct OAuth2/PKCE backend.

The definitions below are a shallow embedding of the Netlify request
handlers in src/netlify/functions (xero-auth, xero-callback,
xero-refresh, xero-connections).  JavaScript strings are Lean
strings, machine numbers are Nat, HTTP responses are explicit
structures, and the outbound fetch calls a handler performs are
returned as an explicit trace so that claims of the form "the token
endpoint is never called" are statable.  Semantics of the standard
library functions used by the source (decodeURIComponent,
encodeURIComponent, cookie.parse, querystring.parse, JSON.parse,
JSON.stringify, crypto sha256/base64) are embedded as executable Lean
functions below, each documented at its definition.
-/

set_option maxRecDepth 100000

namespace XeroTooth

/-! ## Small JavaScript value helpers -/

/-- Model of the JavaScript truthiness test applied to a value that is
either a string or undefined (`Option String`): undefined and the
empty string are falsy, every other string is truthy. -/
def truthyO (v : Option String) : Bool :=
  match v with
  | none => false
  | some s => s ≠ ""

/-- Model of the JavaScript expression `v || d` for v a string or
undefined and d a string default. -/
def jsOrStr (v : Option String) (d : String) : String :=
  match v with
  | none => d
  | some s => if s = "" then d else s

/-! ## Bytes, hex and UTF-8 -/

/-- Value of a hex digit character, upper or lower case. -/
def hexVal (c : Char) : Option Nat :=
  if c.toNat ≥ 48 ∧ c.toNat ≤ 57 then some (c.toNat - 48)
  else if c.toNat ≥ 65 ∧ c.toNat ≤ 70 then some (c.toNat - 55)
  else if c.toNat ≥ 97 ∧ c.toNat ≤ 102 then some (c.toNat - 87)
  else none

/-- Uppercase hex digit for a value below 16, as used by
encodeURIComponent percent escapes. -/
def hexUp (n : Nat) : Char :=
  if n < 10 then Char.ofNat (48 + n) else Char.ofNat (55 + n)

/-- UTF-8 bytes of one Unicode scalar value (standard encoding). -/
def utf8Bytes (c : Char) : List Nat :=
  let n := c.toNat
  if n < 0x80 then [n]
  else if n < 0x800 then [0xC0 + n / 64, 0x80 + n % 64]
  else if n < 0x10000 then
    [0xE0 + n / 4096, 0x80 + (n / 64) % 64, 0x80 + n % 64]
  else
    [0xF0 + n / 262144, 0x80 + (n / 4096) % 64, 0x80 + (n / 64) % 64,
     0x80 + n % 64]

/-- UTF-8 bytes of a string, as crypto.createHash(..).update(str)
consumes it. -/
def utf8Encode (s : List Char) : List Nat :=
  s.flatMap utf8Bytes

/-! ## SHA-256 (FIPS 180-4), executable over Nat bytes -/

/-- Addition modulo 2^32. -/
def add32 (a b : Nat) : Nat := (a + b) % 4294967296

/-- Right rotation of a 32-bit word. -/
def rotr32 (n x : Nat) : Nat :=
  ((x >>> n) ||| (x <<< (32 - n))) % 4294967296

/-- SHA-256 round constants (FIPS 180-4 section 4.2.2, written in
decimal). -/
def shaK : List Nat :=
  [1116352408, 1899447441, 3049323471, 3921009573, 961987163, 1508970993,
   2453635748, 2870763221, 3624381080, 310598401, 607225278, 1426881987,
   1925078388, 2162078206, 2614888103, 3248222580, 3835390401, 4022224774,
   264347078, 604807628, 770255983, 1249150122, 1555081692, 1996064986,
   2554220882, 2821834349, 2952996808, 3210313671, 3336571891, 3584528711,
   113926993, 338241895, 666307205, 773529912, 1294757372, 1396182291,
   1695183700, 1986661051, 2177026350, 2456956037, 2730485921, 2820302411,
   3259730800, 3345764771, 3516065817, 3600352804, 4094571909, 275423344,
   430227734, 506948616, 659060556, 883997877, 958139571, 1322822218,
   1537002063, 1747873779, 1955562222, 2024104815, 2227730452, 2361852424,
   2428436474, 2756734187, 3204031479, 3329325298]

/-- SHA-256 initial hash value (FIPS 180-4 section 5.3.3, written in
decimal). -/
def shaH0 : List Nat :=
  [1779033703, 3144134277, 1013904242, 2773480762,
   1359893119, 2600822924, 528734635, 1541459225]

/-- Big-endian 8-byte encoding of a natural number (for the length
field of SHA-256 padding). -/
def be64 (n : Nat) : List Nat :=
  [(n >>> 56) % 256, (n >>> 48) % 256, (n >>> 40) % 256, (n >>> 32) % 256,
   (n >>> 24) % 256, (n >>> 16) % 256, (n >>> 8) % 256, n % 256]

/-- SHA-256 message padding: append 0x80, zeros to 56 mod 64, then the
bit length big-endian in 8 bytes. -/
def shaPad (msg : List Nat) : List Nat :=
  let L := msg.length
  let k := (120 - (L + 1) % 64) % 64
  msg ++ 0x80 :: List.replicate k 0 ++ be64 (8 * L)

/-- Group bytes into big-endian 32-bit words, 4 bytes per word. -/
def bytesToWords : List Nat → List Nat
  | b0 :: b1 :: b2 :: b3 :: rest =>
      (b0 * 16777216 + b1 * 65536 + b2 * 256 + b3) :: bytesToWords rest
  | _ => []

/-- Group a word list into 16-word blocks; the Nat fuel argument is
an upper bound on the number of blocks, consumed structurally so that
the definition reduces in the kernel. -/
def wordsToBlocksF : Nat → List Nat → List (List Nat)
  | 0, _ => []
  | _, [] => []
  | n + 1, ws => ws.take 16 :: wordsToBlocksF n (ws.drop 16)

/-- Group a word list into 16-word blocks. -/
def wordsToBlocks (ws : List Nat) : List (List Nat) :=
  wordsToBlocksF ws.length ws

/-- Small sigma-0 of the SHA-256 message schedule. -/
def sSig0 (x : Nat) : Nat := rotr32 7 x ^^^ rotr32 18 x ^^^ (x >>> 3)

/-- Small sigma-1 of the SHA-256 message schedule. -/
def sSig1 (x : Nat) : Nat := rotr32 17 x ^^^ rotr32 19 x ^^^ (x >>> 10)

/-- Extend the 16-word block to the 64-word message schedule; the Nat
argument counts the remaining extension steps. -/
def extendW : Nat → Array Nat → Array Nat
  | 0, w => w
  | n + 1, w =>
      let t := add32 (add32 (sSig1 (w.getD (w.size - 2) 0)) (w.getD (w.size - 7) 0))
                     (add32 (sSig0 (w.getD (w.size - 15) 0)) (w.getD (w.size - 16) 0))
      extendW n (w.push t)

/-- State of the SHA-256 compression function. -/
structure Sha8 where
  a : Nat
  b : Nat
  c : Nat
  d : Nat
  e : Nat
  f : Nat
  g : Nat
  h : Nat
  deriving Repr, DecidableEq

/-- One round of the SHA-256 compression function with round constant
k and schedule word w. -/
def shaRound (st : Sha8) (kw : Nat × Nat) : Sha8 :=
  let S1 := rotr32 6 st.e ^^^ rotr32 11 st.e ^^^ rotr32 25 st.e
  let ch := (st.e &&& st.f) ^^^ ((st.e ^^^ 4294967295) &&& st.g)
  let t1 := add32 (add32 (add32 st.h S1) (add32 ch kw.1)) kw.2
  let S0 := rotr32 2 st.a ^^^ rotr32 13 st.a ^^^ rotr32 22 st.a
  let mj := (st.a &&& st.b) ^^^ (st.a &&& st.c) ^^^ (st.b &&& st.c)
  let t2 := add32 S0 mj
  { a := add32 t1 t2, b := st.a, c := st.b, d := st.c,
    e := add32 st.d t1, f := st.e, g := st.f, h := st.g }

/-- Compress one 16-word block into the running hash. -/
def shaCompress (hs : List Nat) (block : List Nat) : List Nat :=
  let w := (extendW 48 (Array.mk block)).toList
  let st0 : Sha8 :=
    { a := hs.getD 0 0, b := hs.getD 1 0, c := hs.getD 2 0, d := hs.getD 3 0,
      e := hs.getD 4 0, f := hs.getD 5 0, g := hs.getD 6 0, h := hs.getD 7 0 }
  let st := (List.zip shaK w).foldl shaRound st0
  [add32 (hs.getD 0 0) st.a, add32 (hs.getD 1 0) st.b,
   add32 (hs.getD 2 0) st.c, add32 (hs.getD 3 0) st.d,
   add32 (hs.getD 4 0) st.e, add32 (hs.getD 5 0) st.f,
   add32 (hs.getD 6 0) st.g, add32 (hs.getD 7 0) st.h]

/-- Big-endian 4-byte split of a 32-bit word. -/
def wordBytes (w : Nat) : List Nat :=
  [(w >>> 24) % 256, (w >>> 16) % 256, (w >>> 8) % 256, w % 256]

/-- SHA-256 of a byte list, producing the 32 digest bytes. -/
def sha256 (msg : List Nat) : List Nat :=
  let blocks := wordsToBlocks (bytesToWords (shaPad msg))
  (blocks.foldl shaCompress shaH0).flatMap wordBytes

/-! ## Base64 -/

/-- The standard base64 alphabet as a character list. -/
def b64Alphabet : List Char :=
  "ABCDEFGHIJKLMNOPQRSTUVWXYZabcdefghijklmnopqrstuvwxyz0123456789+/".data

/-- Character of one base64 sextet. -/
def b64char (n : Nat) : Char := b64Alphabet.getD n 'A'

/-- Standard base64 encoding of a byte list with '=' padding, as
produced by Buffer digest('base64'). -/
def base64 : List Nat → List Char
  | [] => []
  | [b1] => [b64char (b1 / 4), b64char (b1 % 4 * 16), '=', '=']
  | [b1, b2] => [b64char (b1 / 4), b64char (b1 % 4 * 16 + b2 / 16),
                 b64char (b2 % 16 * 4), '=']
  | b1 :: b2 :: b3 :: rest =>
      b64char (b1 / 4) :: b64char (b1 % 4 * 16 + b2 / 16) ::
      b64char (b2 % 16 * 4 + b3 / 64) :: b64char (b3 % 64) :: base64 rest

/-- Character map applied by the source after base64: + to -, / to _
(the two .replace calls before the padding strip). -/
def b64urlChar (c : Char) : Char :=
  if c = '+' then '-' else if c = '/' then '_' else c

/-- PKCE code challenge exactly as derived in xero-connections.js
lines 93-99: sha256 of the UTF-8 bytes of the verifier, base64, then
.replace of all + with -, all / with _, and removal of every =. -/
def codeChallenge (codeVerifier : String) : String :=
  ⟨((base64 (sha256 (utf8Encode codeVerifier.data))).map b64urlChar).filter
      (fun c => c ≠ '=')⟩

/-- Strip the trailing run of = characters from a character list. -/
def stripTrailingEq (l : List Char) : List Char :=
  (l.reverse.dropWhile (fun c => c = '=')).reverse

/-- Modelled from the spec: base64url without padding, i.e. base64
with + mapped to -, / mapped to _, and the trailing = padding
stripped (spec section 4.1). -/
def base64urlNoPad (bytes : List Nat) : String :=
  ⟨stripTrailingEq ((base64 bytes).map b64urlChar)⟩

/-! ## Lemmas: removing every = from base64 output equals stripping
the trailing padding -/

/-- No base64 alphabet character, nor the out-of-range default, is the
padding character. -/
theorem b64char_ne (n : Nat) : b64char n ≠ '=' := by
  by_cases h : n < 64
  · have h64 : ∀ m, m < 64 → b64char m ≠ '=' := by decide
    exact h64 n h
  · unfold b64char
    rw [List.getD_eq_default]
    · decide
    · have hlen : b64Alphabet.length = 64 := by decide
      omega

/-- The base64url character map fixes the padding character and maps
nothing else to it. -/
theorem b64urlChar_ne {c : Char} (h : c ≠ '=') : b64urlChar c ≠ '=' := by
  unfold b64urlChar
  split
  · decide
  · split
    · decide
    · exact h

/-- Stripping trailing = from a list whose head is not = keeps the
head and strips the tail. -/
theorem stripTrailingEq_cons {c : Char} (l : List Char) (h : c ≠ '=') :
    stripTrailingEq (c :: l) = c :: stripTrailingEq l := by
  unfold stripTrailingEq
  rw [List.reverse_cons, List.dropWhile_append]
  by_cases he : (l.reverse.dropWhile (fun c => c = '=')) = []
  · simp [he, h]
  · simp [he, h]

/-- Filtering out = keeps a head character different from =. -/
theorem filter_ne_cons {c : Char} (h : c ≠ '=') (l : List Char) :
    (c :: l).filter (fun x => x ≠ '=') = c :: l.filter (fun x => x ≠ '=') := by
  simp [List.filter_cons, h]

/-- Removing every = character from the base64url-mapped base64
encoding of a byte list equals stripping only the trailing padding:
padding characters occur only at the end of a base64 encoding. -/
theorem base64_filter_eq_strip :
    ∀ l : List Nat,
      (((base64 l).map b64urlChar).filter (fun c => c ≠ '=')) =
        stripTrailingEq ((base64 l).map b64urlChar)
  | [] => by simp [base64, stripTrailingEq]
  | [b1] => by
      have h1 := b64urlChar_ne (b64char_ne (b1 / 4))
      have h2 := b64urlChar_ne (b64char_ne (b1 % 4 * 16))
      simp only [base64, List.map_cons, List.map_nil]
      rw [filter_ne_cons h1, filter_ne_cons h2,
          stripTrailingEq_cons _ h1, stripTrailingEq_cons _ h2]
      exact congrArg _ (congrArg _ (by decide))
  | [b1, b2] => by
      have h1 := b64urlChar_ne (b64char_ne (b1 / 4))
      have h2 := b64urlChar_ne (b64char_ne (b1 % 4 * 16 + b2 / 16))
      have h3 := b64urlChar_ne (b64char_ne (b2 % 16 * 4))
      simp only [base64, List.map_cons, List.map_nil]
      rw [filter_ne_cons h1, filter_ne_cons h2, filter_ne_cons h3,
          stripTrailingEq_cons _ h1, stripTrailingEq_cons _ h2,
          stripTrailingEq_cons _ h3]
      exact congrArg _ (congrArg _ (congrArg _ (by decide)))
  | b1 :: b2 :: b3 :: rest => by
      have ih := base64_filter_eq_strip rest
      have h1 := b64urlChar_ne (b64char_ne (b1 / 4))
      have h2 := b64urlChar_ne (b64char_ne (b1 % 4 * 16 + b2 / 16))
      have h3 := b64urlChar_ne (b64char_ne (b2 % 16 * 4 + b3 / 64))
      have h4 := b64urlChar_ne (b64char_ne (b3 % 64))
      show (((base64 (b1 :: b2 :: b3 :: rest)).map b64urlChar).filter
              (fun c => c ≠ '=')) = _
      rw [show base64 (b1 :: b2 :: b3 :: rest) =
            b64char (b1 / 4) :: b64char (b1 % 4 * 16 + b2 / 16) ::
            b64char (b2 % 16 * 4 + b3 / 64) :: b64char (b3 % 64) ::
            base64 rest from rfl]
      simp only [List.map_cons]
      rw [filter_ne_cons h1, filter_ne_cons h2, filter_ne_cons h3,
          filter_ne_cons h4, stripTrailingEq_cons _ h1,
          stripTrailingEq_cons _ h2, stripTrailingEq_cons _ h3,
          stripTrailingEq_cons _ h4, ih]

/-- C3: for every codeVerifier string, the codeChallenge produced by
the PKCE generator (xero-connections.js lines 93-99) equals the
SHA-256 digest of the UTF-8 bytes of the verifier, base64-encoded
with + replaced by -, / replaced by _, and trailing = padding
stripped; in particular for verifier "abc123" it equals the
precomputed base64url SHA-256 value. -/
theorem pkce_codeChallenge_correct :
    (∀ v : String,
        codeChallenge v = base64urlNoPad (sha256 (utf8Encode v.data))) ∧
    codeChallenge "abc123" = "bKE9UspwyIPg8LsQHkJaiehiTeUdstI5JZOvaoQRgJA" := by
  constructor
  · intro v
    unfold codeChallenge base64urlNoPad
    exact congrArg String.mk (base64_filter_eq_strip _)
  · decide

/-! ## decodeURIComponent / encodeURIComponent -/

/-- Continuation-byte range check for a UTF-8 second byte given the
lead byte of a three-byte sequence (ECMA-262 Decode, strict UTF-8:
E0 tightens the low end, ED excludes surrogates). -/
def cont3OK (lead b : Nat) : Bool :=
  if lead = 224 then decide (160 ≤ b ∧ b ≤ 191)
  else if lead = 237 then decide (128 ≤ b ∧ b ≤ 159)
  else decide (128 ≤ b ∧ b ≤ 191)

/-- Continuation-byte range check for a UTF-8 second byte given the
lead byte of a four-byte sequence (F0 tightens the low end, F4 caps
at U+10FFFF). -/
def cont4OK (lead b : Nat) : Bool :=
  if lead = 240 then decide (144 ≤ b ∧ b ≤ 191)
  else if lead = 244 then decide (128 ≤ b ∧ b ≤ 143)
  else decide (128 ≤ b ∧ b ≤ 191)

/-- Plain continuation byte range. -/
def contOK (b : Nat) : Bool := decide (128 ≤ b ∧ b ≤ 191)

/-- Model of the ECMAScript decodeURIComponent builtin: percent
escapes decode to bytes which must form strict UTF-8; a malformed
escape or byte sequence throws URIError, modelled as none. -/
def decURI : List Char → Option (List Char)
  | [] => some []
  | '%' :: a :: b :: rest =>
    match hexVal a, hexVal b with
    | some h, some l =>
      let B := 16 * h + l
      if B < 128 then (decURI rest).map (fun t => Char.ofNat B :: t)
      else if 194 ≤ B ∧ B ≤ 223 then
        match rest with
        | '%' :: c :: d :: rest2 =>
          match hexVal c, hexVal d with
          | some h2, some l2 =>
            let B2 := 16 * h2 + l2
            if contOK B2 then
              (decURI rest2).map
                (fun t => Char.ofNat ((B - 192) * 64 + (B2 - 128)) :: t)
            else none
          | _, _ => none
        | _ => none
      else if 224 ≤ B ∧ B ≤ 239 then
        match rest with
        | '%' :: c :: d :: '%' :: e :: f :: rest2 =>
          match hexVal c, hexVal d, hexVal e, hexVal f with
          | some h2, some l2, some h3, some l3 =>
            let B2 := 16 * h2 + l2
            let B3 := 16 * h3 + l3
            if cont3OK B B2 ∧ contOK B3 then
              (decURI rest2).map (fun t =>
                Char.ofNat ((B - 224) * 4096 + (B2 - 128) * 64 + (B3 - 128)) :: t)
            else none
          | _, _, _, _ => none
        | _ => none
      else if 240 ≤ B ∧ B ≤ 244 then
        match rest with
        | '%' :: c :: d :: '%' :: e :: f :: '%' :: g :: i :: rest2 =>
          match hexVal c, hexVal d, hexVal e, hexVal f, hexVal g, hexVal i with
          | some h2, some l2, some h3, some l3, some h4, some l4 =>
            let B2 := 16 * h2 + l2
            let B3 := 16 * h3 + l3
            let B4 := 16 * h4 + l4
            if cont4OK B B2 ∧ contOK B3 ∧ contOK B4 then
              (decURI rest2).map (fun t =>
                Char.ofNat ((B - 240) * 262144 + (B2 - 128) * 4096 +
                  (B3 - 128) * 64 + (B4 - 128)) :: t)
            else none
          | _, _, _, _, _, _ => none
        | _ => none
      else none
    | _, _ => none
  | ['%'] => none
  | ['%', _] => none
  | c :: rest => (decURI rest).map (fun t => c :: t)

/-- Characters that encodeURIComponent leaves unescaped: ASCII
letters, digits, and - _ . ! ~ * apostrophe ( ). -/
def uriUnreservedChar (c : Char) : Bool :=
  decide ((65 ≤ c.toNat ∧ c.toNat ≤ 90) ∨ (97 ≤ c.toNat ∧ c.toNat ≤ 122) ∨
    (48 ≤ c.toNat ∧ c.toNat ≤ 57)) ||
  decide (c = '-' ∨ c = '_' ∨ c = '.' ∨ c = '!' ∨ c = '~' ∨ c = '*' ∨
    c = Char.ofNat 39 ∨ c = '(' ∨ c = ')')

/-- Model of the ECMAScript encodeURIComponent builtin: unreserved
characters pass through, everything else becomes uppercase-hex
percent escapes of its UTF-8 bytes. -/
def encURI (s : String) : String :=
  ⟨s.data.flatMap (fun c =>
    if uriUnreservedChar c then [c]
    else (utf8Bytes c).flatMap (fun b => ['%', hexUp (b / 16), hexUp (b % 16)]))⟩

/-! ## cookie.parse and querystring.parse -/

/-- JavaScript whitespace trimmed by String.prototype.trim, restricted
to the characters that can appear here. -/
def jsWs (c : Char) : Bool :=
  decide (c = ' ' ∨ c = Char.ofNat 9 ∨ c = Char.ofNat 10 ∨ c = Char.ofNat 13)

/-- Trim leading and trailing whitespace. -/
def trimJs (l : List Char) : List Char :=
  ((l.dropWhile jsWs).reverse.dropWhile jsWs).reverse

/-- Split a character list on a separator character. -/
def splitOnChar (sep : Char) : List Char → List (List Char)
  | [] => [[]]
  | c :: rest =>
    let r := splitOnChar sep rest
    if c = sep then [] :: r
    else
      match r with
      | h :: t => (c :: h) :: t
      | [] => [[c]]

/-- Split a character list at the first occurrence of a separator,
returning the parts before and after it. -/
def splitFirstC (sep : Char) : List Char → Option (List Char × List Char)
  | [] => none
  | c :: rest =>
    if c = sep then some ([], rest)
    else (splitFirstC sep rest).map (fun p => (c :: p.1, p.2))

/-- Model of the tryDecode step of the npm cookie library: attempt
decodeURIComponent, keep the raw value if it throws. -/
def tryDecode (v : List Char) : List Char :=
  match decURI v with
  | some d => d
  | none => v

/-- Model of cookie.parse: split on semicolons, split each pair at its
first =, trim, strip a leading double quote pair, try to
percent-decode the value; pairs without = are skipped. -/
def cookiePairs (s : List Char) : List (String × String) :=
  (splitOnChar ';' s).filterMap fun seg =>
    match splitFirstC '=' seg with
    | none => none
    | some (k, v) =>
      let v0 := trimJs v
      let v1 := if v0.head? = some '"' then (v0.drop 1).dropLast else v0
      some (⟨trimJs k⟩, ⟨tryDecode v1⟩)

/-- First-occurrence lookup in an association list, as property
assignment with an undefined-check gives in JavaScript. -/
def lookupFirst (pairs : List (String × String)) (k : String) : Option String :=
  ((pairs.filter (fun p => p.1 = k)).head?).map (fun p => p.2)

/-- Lenient percent-and-plus decoding used by querystring.parse (the
unescape path that never throws): + becomes space, valid %XX escapes
become bytes, invalid escapes stay literal.  Decoded bytes are read
as Latin-1 characters; on the ASCII range this agrees exactly with
the Node behaviour, which is the range all claim inputs use. -/
def qsUnescape : List Char → List Char
  | [] => []
  | '+' :: rest => ' ' :: qsUnescape rest
  | '%' :: a :: b :: rest =>
    (match hexVal a, hexVal b with
     | some h, some l => Char.ofNat (16 * h + l) :: qsUnescape rest
     | _, _ => '%' :: qsUnescape (a :: b :: rest))
  | c :: rest => c :: qsUnescape rest

/-- Model of querystring.parse: split on ampersands, skip empty
segments, split each segment at its first =, unescape keys and
values. -/
def qsPairs (s : List Char) : List (String × String) :=
  (splitOnChar '&' s).filterMap fun seg =>
    if seg = [] then none
    else
      match splitFirstC '=' seg with
      | none => some (⟨qsUnescape seg⟩, "")
      | some (k, v) => some (⟨qsUnescape k⟩, ⟨qsUnescape v⟩)

/-- Value of a querystring.parse property: absent keys are undefined,
repeated keys collect into an array. -/
inductive QsVal where
  | absent : QsVal
  | str : String → QsVal
  | arr : List String → QsVal
  deriving DecidableEq, Repr

/-- Property read on a parsed query string object. -/
def qsGet (pairs : List (String × String)) (k : String) : QsVal :=
  match pairs.filter (fun p => p.1 = k) with
  | [] => .absent
  | [p] => .str p.2
  | ps => .arr (ps.map (fun p => p.2))

/-- JavaScript strict equality of a known string against a
querystring property value: only a single string occurrence can be
strictly equal. -/
def jsStrictEqStr (s : String) : QsVal → Bool
  | .str t => s = t
  | _ => false

/-! ## JSON.stringify (for the strings the handlers build) -/

/-- Lowercase hex digit. -/
def hexLow (n : Nat) : Char :=
  if n < 10 then Char.ofNat (48 + n) else Char.ofNat (87 + n)

/-- JSON.stringify escaping of one character inside a string. -/
def jsonEscChar (c : Char) : List Char :=
  if c = '"' then ['\\', '"']
  else if c = '\\' then ['\\', '\\']
  else if c = Char.ofNat 8 then ['\\', 'b']
  else if c = Char.ofNat 9 then ['\\', 't']
  else if c = Char.ofNat 10 then ['\\', 'n']
  else if c = Char.ofNat 12 then ['\\', 'f']
  else if c = Char.ofNat 13 then ['\\', 'r']
  else if c.toNat < 32 then
    ['\\', 'u', '0', '0', hexLow (c.toNat / 16), hexLow (c.toNat % 16)]
  else [c]

/-- JSON.stringify of a string value. -/
def jsonStr (s : String) : String :=
  "\"" ++ ⟨s.data.flatMap jsonEscChar⟩ ++ "\""

/-- Comma join. -/
def joinComma : List String → String
  | [] => ""
  | [s] => s
  | s :: rest => s ++ "," ++ joinComma rest

/-! ## Data model of the handlers -/

/-- Query parameters and cookie header of a callback invocation; each
query field is a string when present in the query object, undefined
otherwise. -/
structure CbEvent where
  queryError : Option String
  queryErrorDescription : Option String
  queryCode : Option String
  queryState : Option String
  cookieHeader : Option String
  deriving DecidableEq, Repr

/-- Process environment configuration read by the handlers. -/
structure Env where
  url : Option String
  clientId : Option String
  clientSecret : Option String
  deriving DecidableEq, Repr

/-- Parsed body of a successful provider token response, under the
provider contract that these fields are present. -/
structure TokenData where
  access_token : String
  refresh_token : String
  expires_in : Nat
  id_token : Option String
  deriving DecidableEq, Repr

/-- One entry of the provider connections array; tenantName may be
absent. -/
structure Conn where
  tenantId : String
  tenantName : Option String
  deriving DecidableEq, Repr

/-- Response of the provider token endpoint as the handler observes
it: HTTP status, body text, and the parsed JSON body (none when the
body fails to parse as JSON). -/
structure TokenUpstream where
  status : Nat
  text : String
  json : Option TokenData
  deriving DecidableEq, Repr

/-- Response of the provider connections endpoint as the handler
observes it. -/
structure ConnUpstream where
  status : Nat
  json : Option (List Conn)
  deriving DecidableEq, Repr

/-- Outbound fetch calls a handler can issue; the token exchange
records the redirect_uri form field it sends. -/
inductive Call where
  | tokenExchange : String → Call
  | connectionsFetch : Call
  | refreshExchange : Call
  deriving DecidableEq, Repr

/-- HTTP response of a handler. -/
structure Response where
  statusCode : Nat
  headers : List (String × String)
  body : Option String
  deriving DecidableEq, Repr

/-- node-fetch response.ok: status in the 2xx range. -/
def okStatus (s : Nat) : Bool := decide (200 ≤ s ∧ s ≤ 299)

/-- Location lookup in response headers. -/
def locationOf (r : Response) : Option String :=
  lookupFirst r.headers "Location"

/-! ## xero-callback.js embedding -/

/-- Redirect URI built by the callback handler (xero-callback.js
line 63). -/
def callbackRedirectUri (url : Option String) : String :=
  jsOrStr url "http://localhost:8888" ++ "/.netlify/functions/xero-callback"

/-- Redirect URI placed as the redirect_uri query parameter of the
provider authorization URL by the authorization request builder
(xero-auth.js lines 117-118 and 125). -/
def authRedirectUri (url : Option String) : String :=
  jsOrStr url "http://localhost:8888" ++ "/.netlify/functions/xero-callback"

/-- Error redirect helper of xero-callback.js lines 170-178. -/
def redirectWithError (message : String) : Response :=
  { statusCode := 302,
    headers := [("Location", "/?auth=error&message=" ++ encURI message),
                ("Cache-Control", "no-cache")],
    body := none }

/-- Message of the exception thrown when an upstream response body
fails JSON parsing inside the callback handler; the exact text is
library-specific and no claim depends on it, only on the path it
takes through the catch-all. -/
def jsonFetchErrMsg : String := "invalid json response body"

/-- Active tenant id selection, xero-callback.js line 108: first
element of the connections list, null (none) when the list is
empty. -/
def selTenantId (cs : List Conn) : Option String :=
  if cs.length > 0 then some (cs.headD ⟨"", none⟩).tenantId else none

/-- Active tenant name selection, xero-callback.js line 109: first
element, the fixed string when the list is empty. -/
def selTenantName (cs : List Conn) : Option String :=
  if cs.length > 0 then (cs.headD ⟨"", none⟩).tenantName
  else some "Unknown Organization"

/-- JSON.stringify of one orgData entry (xero-callback.js lines
143-146), field order as written. -/
def orgJson (c : Conn) : String :=
  "\x7b\"tenantId\":" ++ jsonStr c.tenantId ++ ",\"tenantName\":" ++
    jsonStr (jsOrStr c.tenantName "Unnamed Organization") ++ "\x7d"

/-- JSON.stringify of the orgData array, in list order. -/
def orgsJson (cs : List Conn) : String :=
  "[" ++ joinComma (cs.map orgJson) ++ "]"

/-- JSON.stringify of the token bundle placed in the success redirect
(xero-callback.js lines 154-158). -/
def tokensJson (now : Nat) (td : TokenData) : String :=
  "\x7b\"access_token\":" ++ jsonStr td.access_token ++
    ",\"refresh_token\":" ++ jsonStr td.refresh_token ++
    ",\"expires_at\":" ++ toString (now + td.expires_in * 1000) ++ "\x7d"

/-- Location string of the success redirect, transcribing the template
literal of xero-callback.js line 154. -/
def successLocation (now : Nat) (td : TokenData) (cs : List Conn) : String :=
  "/?auth=success&tenantName=" ++ encURI (jsOrStr (selTenantName cs) "Unknown") ++
  "&tenantId=" ++ encURI (jsOrStr (selTenantId cs) "") ++
  "&multipleOrgs=" ++ (if cs.length > 1 then "true" else "false") ++
  "&tenants=" ++ encURI (orgsJson cs) ++
  "&tokens=" ++ encURI (tokensJson now td)

/-- The success response of xero-callback.js lines 151-161: a 302
with only Location and Cache-Control headers. -/
def successResponse (now : Nat) (td : TokenData) (cs : List Conn) : Response :=
  { statusCode := 302,
    headers := [("Location", successLocation now td cs),
                ("Cache-Control", "no-cache")],
    body := none }

/-- The callback handler of xero-callback.js, as a function of the
event, the environment, the two upstream responses it may consult,
and the current time; returns the HTTP response together with the
trace of outbound calls actually issued on that run.  The
decodeURIComponent failure branch is the URIError landing in the
outer catch (message "URI malformed"); upstream JSON parse failures
likewise land in the catch. -/
def xeroCallbackHandler (ev : CbEvent) (env : Env) (tu : TokenUpstream)
    (cu : ConnUpstream) (now : Nat) : Response × List Call :=
  if truthyO ev.queryError then
    (redirectWithError ("Authentication error: " ++
      jsOrStr ev.queryErrorDescription (jsOrStr ev.queryError "")), [])
  else if !truthyO ev.queryCode then
    (redirectWithError "No authorization code received from Xero", [])
  else if !truthyO ev.queryState then
    (redirectWithError "Invalid authentication request (missing state)", [])
  else if !truthyO (lookupFirst (cookiePairs (jsOrStr ev.cookieHeader "").data)
      "xero_auth") then
    (redirectWithError "Authentication session expired or invalid", [])
  else
    match decURI (jsOrStr (lookupFirst (cookiePairs
        (jsOrStr ev.cookieHeader "").data) "xero_auth") "").data with
    | none => (redirectWithError "Server error: URI malformed", [])
    | some decoded =>
      if !jsStrictEqStr (jsOrStr ev.queryState "") (qsGet (qsPairs decoded) "state") then
        (redirectWithError "Invalid authentication request (state mismatch)", [])
      else if !(truthyO env.clientId && truthyO env.clientSecret) then
        (redirectWithError "Server configuration error (missing Xero credentials)", [])
      else if !okStatus tu.status then
        (redirectWithError ("Failed to exchange code for tokens (" ++
          toString tu.status ++ ")"),
         [Call.tokenExchange (callbackRedirectUri env.url)])
      else
        match tu.json with
        | none => (redirectWithError ("Server error: " ++ jsonFetchErrMsg),
                   [Call.tokenExchange (callbackRedirectUri env.url)])
        | some td =>
          if !okStatus cu.status then
            (redirectWithError "Connected to Xero, but failed to get user details",
             [Call.tokenExchange (callbackRedirectUri env.url),
              Call.connectionsFetch])
          else
            match cu.json with
            | none => (redirectWithError ("Server error: " ++ jsonFetchErrMsg),
                       [Call.tokenExchange (callbackRedirectUri env.url),
                        Call.connectionsFetch])
            | some cs =>
              (successResponse now td cs,
               [Call.tokenExchange (callbackRedirectUri env.url),
                Call.connectionsFetch])

/-! ## JSON.parse -/

/-- JSON values; numbers keep their lexeme, which preserves the one
observation the handlers make of them (truthiness). -/
inductive Json where
  | jnull : Json
  | jbool : Bool → Json
  | jnum : String → Json
  | jstr : String → Json
  | jarr : List Json → Json
  | jobj : List (String × Json) → Json

/-- JSON whitespace. -/
def jsonWs (c : Char) : Bool :=
  decide (c = ' ' ∨ c = Char.ofNat 9 ∨ c = Char.ofNat 10 ∨ c = Char.ofNat 13)

/-- Skip JSON whitespace. -/
def skipWs (s : List Char) : List Char := s.dropWhile jsonWs

/-- Four hex digits as a number. -/
def hex4 (a b c d : Char) : Option Nat :=
  match hexVal a, hexVal b, hexVal c, hexVal d with
  | some x, some y, some z, some w => some (x * 4096 + y * 256 + z * 16 + w)
  | _, _, _, _ => none

/-- Decimal digit test. -/
def isDigitC (c : Char) : Bool := decide (48 ≤ c.toNat ∧ c.toNat ≤ 57)

/-- Span of leading decimal digits. -/
def spanDigits : List Char → List Char × List Char
  | [] => ([], [])
  | c :: rest =>
    if isDigitC c then
      let p := spanDigits rest
      (c :: p.1, p.2)
    else ([], c :: rest)

/-- Parse the body of a JSON string after the opening quote, returning
the decoded characters and the remainder after the closing quote.
Escape sequences follow the JSON grammar; a surrogate \\u pair
combines into one scalar, and a lone surrogate (which the engine
would keep as an unpaired UTF-16 unit, unrepresentable as a Lean
scalar) is modelled as U+FFFD — no claim input contains one.  The Nat
fuel is an upper bound on the characters consumed, kept structural so
the definition reduces in the kernel. -/
def parseJStrF : Nat → List Char → Option (List Char × List Char)
  | 0, _ => none
  | _ + 1, [] => none
  | _ + 1, '"' :: rest => some ([], rest)
  | fu + 1, '\\' :: 'u' :: a :: b :: c :: d :: rest =>
    (match hex4 a b c d with
     | none => none
     | some n =>
       if 55296 ≤ n ∧ n ≤ 56319 then
         match rest with
         | '\\' :: 'u' :: e :: f :: g :: h :: rest2 =>
           (match hex4 e f g h with
            | none => none
            | some m =>
              if 56320 ≤ m ∧ m ≤ 57343 then
                (parseJStrF fu rest2).map (fun p =>
                  (Char.ofNat (65536 + (n - 55296) * 1024 + (m - 56320)) :: p.1, p.2))
              else (parseJStrF fu rest2).map (fun p =>
                (Char.ofNat 65533 ::
                  (if 55296 ≤ m ∧ m ≤ 57343 then Char.ofNat 65533 else Char.ofNat m) :: p.1, p.2)))
         | _ => (parseJStrF fu rest).map (fun p => (Char.ofNat 65533 :: p.1, p.2))
       else if 56320 ≤ n ∧ n ≤ 57343 then
         (parseJStrF fu rest).map (fun p => (Char.ofNat 65533 :: p.1, p.2))
       else (parseJStrF fu rest).map (fun p => (Char.ofNat n :: p.1, p.2)))
  | fu + 1, '\\' :: e :: rest =>
    (match (if e = '"' then some '"'
            else if e = '\\' then some '\\'
            else if e = '/' then some '/'
            else if e = 'b' then some (Char.ofNat 8)
            else if e = 'f' then some (Char.ofNat 12)
            else if e = 'n' then some (Char.ofNat 10)
            else if e = 'r' then some (Char.ofNat 13)
            else if e = 't' then some (Char.ofNat 9)
            else none) with
     | some ch => (parseJStrF fu rest).map (fun p => (ch :: p.1, p.2))
     | none => none)
  | fu + 1, c :: rest =>
    if c.toNat < 32 then none
    else (parseJStrF fu rest).map (fun p => (c :: p.1, p.2))

/-- Parse a JSON string body with always-sufficient fuel. -/
def parseJStr (s : List Char) : Option (List Char × List Char) :=
  parseJStrF (s.length + 1) s

/-- Parse a JSON number lexeme: optional minus, digits, optional
fraction, optional exponent; returns the lexeme and the remainder. -/
def parseJNum (s : List Char) : Option (String × List Char) :=
  let sgn : List Char × List Char :=
    match s with
    | '-' :: r => (['-'], r)
    | _ => ([], s)
  match spanDigits sgn.2 with
  | ([], _) => none
  | ('0' :: _ :: _, _) => none
  | (ds, r1) =>
    let fr : List Char × List Char :=
      match r1 with
      | '.' :: rr =>
        (match spanDigits rr with
         | ([], _) => ([], r1)
         | (fs, r2) => ('.' :: fs, r2))
      | _ => ([], r1)
    let ex : List Char × List Char :=
      match fr.2 with
      | c :: rr =>
        if c = 'e' ∨ c = 'E' then
          match rr with
          | '+' :: rrr =>
            (match spanDigits rrr with
             | ([], _) => ([], fr.2)
             | (es, r3) => (c :: '+' :: es, r3))
          | '-' :: rrr =>
            (match spanDigits rrr with
             | ([], _) => ([], fr.2)
             | (es, r3) => (c :: '-' :: es, r3))
          | _ =>
            (match spanDigits rr with
             | ([], _) => ([], fr.2)
             | (es, r3) => (c :: es, r3))
        else ([], fr.2)
      | [] => ([], fr.2)
    some (⟨sgn.1 ++ ds ++ fr.1 ++ ex.1⟩, ex.2)

mutual

/-- Parse one JSON value; the Nat fuel bounds the recursion and is
chosen large enough in jsonParse that it never runs out on an input
it could otherwise parse. -/
def parseVal : Nat → List Char → Option (Json × List Char)
  | 0, _ => none
  | fu + 1, s =>
    match skipWs s with
    | 'n' :: 'u' :: 'l' :: 'l' :: r => some (.jnull, r)
    | 't' :: 'r' :: 'u' :: 'e' :: r => some (.jbool true, r)
    | 'f' :: 'a' :: 'l' :: 's' :: 'e' :: r => some (.jbool false, r)
    | '"' :: r => (parseJStr r).map (fun p => (.jstr ⟨p.1⟩, p.2))
    | '[' :: r =>
      (match skipWs r with
       | ']' :: r2 => some (.jarr [], r2)
       | r2 => parseElems fu r2 [])
    | c :: r =>
      if c = Char.ofNat 123 then
        match skipWs r with
        | c2 :: r2 =>
          if c2 = Char.ofNat 125 then some (.jobj [], r2)
          else parseMembers fu (c2 :: r2) []
        | [] => none
      else (parseJNum (c :: r)).map (fun p => (.jnum p.1, p.2))
    | [] => none

/-- Parse the remaining comma-separated elements of a JSON array. -/
def parseElems : Nat → List Char → List Json → Option (Json × List Char)
  | 0, _, _ => none
  | fu + 1, s, acc =>
    match parseVal fu s with
    | none => none
    | some (v, r) =>
      match skipWs r with
      | ',' :: r2 => parseElems fu r2 (acc ++ [v])
      | ']' :: r2 => some (.jarr (acc ++ [v]), r2)
      | _ => none

/-- Parse the remaining comma-separated members of a JSON object. -/
def parseMembers : Nat → List Char → List (String × Json) →
    Option (Json × List Char)
  | 0, _, _ => none
  | fu + 1, s, acc =>
    match skipWs s with
    | '"' :: r =>
      (match parseJStr r with
       | none => none
       | some (k, r2) =>
         match skipWs r2 with
         | ':' :: r3 =>
           (match parseVal fu r3 with
            | none => none
            | some (v, r4) =>
              match skipWs r4 with
              | ',' :: r5 => parseMembers fu r5 (acc ++ [(⟨k⟩, v)])
              | c :: r5 =>
                if c = Char.ofNat 125 then some (.jobj (acc ++ [(⟨k⟩, v)]), r5)
                else none
              | [] => none)
         | _ => none)
    | _ => none

end

/-- Model of JSON.parse: parse one value and require the remainder to
be whitespace; none models the thrown SyntaxError. -/
def jsonParse (s : String) : Option Json :=
  match parseVal (2 * s.length + 4) s.data with
  | some (j, r) => if skipWs r = [] then some j else none
  | none => none

/-- Result of a JavaScript property read used for refresh_token:
reading on null throws, reading a missing key or a key of a
non-object gives undefined. -/
inductive FieldRes where
  | thrown : FieldRes
  | absent : FieldRes
  | val : Json → FieldRes

/-- Property read requestData.refresh_token: throws on null, reads
the last occurrence on an object (JSON.parse keeps the last duplicate
key), undefined otherwise. -/
def jsField (j : Json) (k : String) : FieldRes :=
  match j with
  | .jnull => .thrown
  | .jobj kvs =>
    (match (kvs.filter (fun p => p.1 = k)).getLast? with
     | some p => .val p.2
     | none => .absent)
  | _ => .absent

/-- JavaScript truthiness of a JSON value; a number is truthy iff its
mantissa has a nonzero digit. -/
def jsTruthy : Json → Bool
  | .jnull => false
  | .jbool b => b
  | .jstr s => s ≠ ""
  | .jnum lex =>
    (lex.data.takeWhile (fun c => decide (c ≠ 'e' ∧ c ≠ 'E'))).any
      (fun c => decide (49 ≤ c.toNat ∧ c.toNat ≤ 57))
  | .jarr _ => true
  | .jobj _ => true

/-- Truthiness of a property read result. -/
def truthyF : FieldRes → Bool
  | .val j => jsTruthy j
  | _ => false

/-! ## xero-refresh.js embedding -/

/-- Method and body of a refresh invocation. -/
structure RefreshEvent where
  httpMethod : String
  body : Option String
  deriving DecidableEq, Repr

/-- CORS headers of xero-refresh.js lines 6-10. -/
def refreshCors : List (String × String) :=
  [("Access-Control-Allow-Origin", "*"),
   ("Access-Control-Allow-Headers", "Content-Type"),
   ("Access-Control-Allow-Methods", "POST, OPTIONS")]

/-- Catch-all body of xero-refresh.js lines 101-108 for a thrown
error with the given message. -/
def refreshCatchBody (msg : String) : String :=
  "\x7b\"error\":\"Server error\",\"message\":" ++ jsonStr msg ++ "\x7d"

/-- Message of the SyntaxError thrown by JSON.parse on a malformed
body; engine-specific text, asserted by no claim. -/
def jsonSyntaxErrMsg : String := "Unexpected token in JSON"

/-- Message of the TypeError thrown by reading a property of null;
engine-specific text, asserted by no claim. -/
def nullReadErrMsg : String := "Cannot read properties of null"

/-- Upstream error passthrough body of xero-refresh.js lines 69-76:
the upstream body text is carried verbatim as the details field. -/
def refreshErrEnvelope (details : String) : String :=
  "\x7b\"error\":\"Failed to refresh token\",\"details\":" ++
    jsonStr details ++ "\x7d"

/-- Success body of xero-refresh.js lines 86-97. -/
def refreshSuccessBody (now : Nat) (td : TokenData) : String :=
  "\x7b\"access_token\":" ++ jsonStr td.access_token ++
    ",\"refresh_token\":" ++ jsonStr td.refresh_token ++
    ",\"expires_at\":" ++ toString (now + td.expires_in * 1000) ++ "\x7d"

/-- The refresh handler of xero-refresh.js as a function of the
event, environment, the upstream token response it may consult, and
the current time, returning the response and the trace of outbound
calls.  A body that fails JSON.parse and a null body value throw
inside the try and land in the catch as a 500. -/
def xeroRefreshHandler (ev : RefreshEvent) (env : Env) (up : TokenUpstream)
    (now : Nat) : Response × List Call :=
  if ev.httpMethod = "OPTIONS" then
    (⟨204, refreshCors, none⟩, [])
  else if ev.httpMethod ≠ "POST" then
    (⟨405, refreshCors, some "\x7b\"error\":\"Method not allowed\"\x7d"⟩, [])
  else
    match jsonParse (jsOrStr ev.body "\x7b\x7d") with
    | none => (⟨500, refreshCors, some (refreshCatchBody jsonSyntaxErrMsg)⟩, [])
    | some j =>
      match jsField j "refresh_token" with
      | .thrown => (⟨500, refreshCors, some (refreshCatchBody nullReadErrMsg)⟩, [])
      | fr =>
        if !truthyF fr then
          (⟨400, refreshCors, some "\x7b\"error\":\"Refresh token is required\"\x7d"⟩, [])
        else if !(truthyO env.clientId && truthyO env.clientSecret) then
          (⟨500, refreshCors, some "\x7b\"error\":\"Missing Xero credentials\"\x7d"⟩, [])
        else if !okStatus up.status then
          (⟨up.status, refreshCors, some (refreshErrEnvelope up.text)⟩,
           [Call.refreshExchange])
        else
          match up.json with
          | none => (⟨500, refreshCors, some (refreshCatchBody jsonFetchErrMsg)⟩,
                     [Call.refreshExchange])
          | some td =>
            (⟨200, refreshCors ++ [("Content-Type", "application/json")],
              some (refreshSuccessBody now td)⟩, [Call.refreshExchange])

/-! ## xero-connections.js embedding -/

/-- CORS headers of xero-connections.js lines 5-9. -/
def connectionsCors : List (String × String) :=
  [("Access-Control-Allow-Origin", "*"),
   ("Access-Control-Allow-Headers", "Content-Type"),
   ("Access-Control-Allow-Methods", "GET, OPTIONS")]

/-- The connections handler of xero-connections.js lines 4-71: 204
for OPTIONS, 401 unless the xero_authenticated cookie strictly equals
true, 404 without a truthy xero_tenant_id cookie, else 200 with the
tenant read back from the cookies. -/
def xeroConnectionsHandler (httpMethod : String) (cookieHeader : Option String) :
    Response :=
  if httpMethod = "OPTIONS" then ⟨204, connectionsCors, none⟩
  else if !(lookupFirst (cookiePairs (jsOrStr cookieHeader "").data)
      "xero_authenticated" = some "true" : Bool) then
    ⟨401, connectionsCors,
      some "\x7b\"error\":\"Unauthorized\",\"message\":\"Please connect to Xero first\"\x7d"⟩
  else if !truthyO (lookupFirst (cookiePairs (jsOrStr cookieHeader "").data)
      "xero_tenant_id") then
    ⟨404, connectionsCors,
      some "\x7b\"error\":\"Not Found\",\"message\":\"No Xero organization found. Please reconnect to Xero.\"\x7d"⟩
  else
    ⟨200, connectionsCors ++ [("Content-Type", "application/json")],
      some ("[\x7b\"tenantId\":" ++
        jsonStr (jsOrStr (lookupFirst (cookiePairs
          (jsOrStr cookieHeader "").data) "xero_tenant_id") "") ++
        ",\"tenantName\":" ++
        jsonStr (jsOrStr (lookupFirst (cookiePairs
          (jsOrStr cookieHeader "").data) "xero_tenant_name")
          "Xero Organization") ++ "\x7d]")⟩

/-! ## General helper lemmas -/

/-- String concatenation is associative. -/
theorem strAssoc (a b c : String) : (a ++ b) ++ c = a ++ (b ++ c) := by
  rcases a with ⟨la⟩
  rcases b with ⟨lb⟩
  rcases c with ⟨lc⟩
  show String.mk ((la ++ lb) ++ lc) = String.mk (la ++ (lb ++ lc))
  rw [List.append_assoc]

/-- Location lookup finds the Location header at the front. -/
theorem locationOf_cons (s : Nat) (l : String) (rest : List (String × String))
    (b : Option String) :
    locationOf ⟨s, ("Location", l) :: rest, b⟩ = some l := by
  simp [locationOf, lookupFirst, List.filter]

/-- Location of an error redirect. -/
theorem locationOf_redirectWithError (m : String) :
    locationOf (redirectWithError m) =
      some ("/?auth=error&message=" ++ encURI m) :=
  locationOf_cons _ _ _ _

/-- Location of the success response. -/
theorem locationOf_success (now : Nat) (td : TokenData) (cs : List Conn) :
    locationOf (successResponse now td cs) = some (successLocation now td cs) :=
  locationOf_cons _ _ _ _

/-- The success Location starts with the auth=success marker. -/
theorem successLocation_marker (now : Nat) (td : TokenData) (cs : List Conn) :
    ∃ t, successLocation now td cs = "/?auth=success&" ++ t := by
  refine ⟨"tenantName=" ++ (encURI (jsOrStr (selTenantName cs) "Unknown") ++
    ("&tenantId=" ++ (encURI (jsOrStr (selTenantId cs) "") ++
    ("&multipleOrgs=" ++ ((if cs.length > 1 then "true" else "false") ++
    ("&tenants=" ++ (encURI (orgsJson cs) ++
    ("&tokens=" ++ encURI (tokensJson now td))))))))), ?_⟩
  simp only [successLocation, strAssoc]
  rw [show ("/?auth=success&tenantName=" : String) =
    "/?auth=success&" ++ "tenantName=" from by decide, strAssoc]

/-! ## Claim theorems -/

/-- C2 (code bug evidence): on every exit path of the callback
handler — provider error, missing code, missing state, absent cookie,
undecodable cookie, state mismatch, missing credentials, failed token
exchange, failed tenant fetch, and success — the response headers are
exactly Location and Cache-Control; in particular no exit path
carries any Set-Cookie header, so the correlation cookie is never
cleared, contradicting the claim (and the source comment at line 127
announcing the clearing whose result is never attached). -/
theorem callback_headers_never_set_cookie (ev : CbEvent) (env : Env)
    (tu : TokenUpstream) (cu : ConnUpstream) (now : Nat) :
    ((xeroCallbackHandler ev env tu cu now).1.headers.map Prod.fst) =
      ["Location", "Cache-Control"] := by
  unfold xeroCallbackHandler
  repeat' split
  all_goals simp [redirectWithError, successResponse]

/-- C5: every terminal outcome of the callback handler, the catch-all
included, is an HTTP 302 with no body whose Location is the
application root with auth=success or auth=error plus a message. -/
theorem callback_always_302_redirect (ev : CbEvent) (env : Env)
    (tu : TokenUpstream) (cu : ConnUpstream) (now : Nat) :
    (xeroCallbackHandler ev env tu cu now).1.statusCode = 302 ∧
    (xeroCallbackHandler ev env tu cu now).1.body = none ∧
    ∃ loc, locationOf (xeroCallbackHandler ev env tu cu now).1 = some loc ∧
      ((∃ t, loc = "/?auth=success&" ++ t) ∨
       (∃ t, loc = "/?auth=error&message=" ++ t)) := by
  unfold xeroCallbackHandler
  repeat' split
  all_goals refine ⟨rfl, rfl, ?_⟩
  all_goals first
    | exact ⟨_, locationOf_redirectWithError _, .inr ⟨_, rfl⟩⟩
    | exact ⟨_, locationOf_success _ _ _, .inl (successLocation_marker _ _ _)⟩

/-- C1 (counterexample): with a truthy error parameter also present,
an invocation that carries a code, a state, and a present, decodable
correlation cookie whose stored state differs from the query state
does not terminate with the StateMismatch redirect — the provider
error exit masks the state check — refuting the claim as stated. -/
theorem callback_state_mismatch_cex :
    truthyO (some "thecode") = true ∧ truthyO (some "X") = true ∧
    truthyO (lookupFirst
      (cookiePairs "xero_auth=state%3DY%26code_verifier%3Dv".data)
      "xero_auth") = true ∧
    decURI (jsOrStr (lookupFirst
      (cookiePairs "xero_auth=state%3DY%26code_verifier%3Dv".data)
      "xero_auth") "").data = some "state=Y&code_verifier=v".data ∧
    jsStrictEqStr "X" (qsGet (qsPairs "state=Y&code_verifier=v".data)
      "state") = false ∧
    (xeroCallbackHandler
      ⟨some "access_denied", none, some "thecode", some "X",
       some "xero_auth=state%3DY%26code_verifier%3Dv"⟩
      ⟨none, some "id", some "sec"⟩ ⟨200, "", none⟩ ⟨200, none⟩ 0).1 ≠
      redirectWithError "Invalid authentication request (state mismatch)" := by
  decide

/-- C1 (amended): for every callback invocation whose query string
carries no truthy error parameter but carries a code and a state,
with the correlation cookie present and decodable, if the state
stored in the cookie differs from the query state then the handler
returns the StateMismatch error redirect and issues no outbound call,
so the provider token endpoint is never contacted on that run. -/
theorem callback_state_mismatch_rejects (ev : CbEvent) (env : Env)
    (tu : TokenUpstream) (cu : ConnUpstream) (now : Nat) (d : List Char)
    (he : truthyO ev.queryError = false)
    (hc : truthyO ev.queryCode = true)
    (hs : truthyO ev.queryState = true)
    (hk : truthyO (lookupFirst (cookiePairs (jsOrStr ev.cookieHeader "").data)
      "xero_auth") = true)
    (hd : decURI (jsOrStr (lookupFirst (cookiePairs
      (jsOrStr ev.cookieHeader "").data) "xero_auth") "").data = some d)
    (hm : jsStrictEqStr (jsOrStr ev.queryState "")
      (qsGet (qsPairs d) "state") = false) :
    xeroCallbackHandler ev env tu cu now =
      (redirectWithError "Invalid authentication request (state mismatch)", []) := by
  unfold xeroCallbackHandler
  simp [he, hc, hs, hk, hd, hm]

/-- C1 (witness): the amended theorem applied to a concrete mismatch
run: query state X against cookie state Y. -/
theorem callback_state_mismatch_rejects_witness :
    xeroCallbackHandler
      ⟨none, none, some "thecode", some "X",
       some "xero_auth=state%3DY%26code_verifier%3Dv"⟩
      ⟨none, some "id", some "sec"⟩ ⟨200, "", none⟩ ⟨200, none⟩ 0 =
      (redirectWithError "Invalid authentication request (state mismatch)", []) :=
  callback_state_mismatch_rejects _ _ _ _ _ "state=Y&code_verifier=v".data
    (by decide) (by decide) (by decide) (by decide) (by decide) (by decide)

/-- C6 (counterexample): a present but percent-undecodable correlation
cookie (value %) does not terminate with the SessionExpired redirect
as the claim states for an unparsable cookie; it lands in the
catch-all server-error redirect instead. -/
theorem callback_unparsable_cookie_cex :
    truthyO (lookupFirst (cookiePairs "xero_auth=%".data) "xero_auth") = true ∧
    decURI (jsOrStr (lookupFirst (cookiePairs "xero_auth=%".data)
      "xero_auth") "").data = none ∧
    (xeroCallbackHandler ⟨none, none, some "thecode", some "X",
        some "xero_auth=%"⟩
      ⟨none, some "id", some "sec"⟩ ⟨200, "", none⟩ ⟨200, none⟩ 0).1 =
      redirectWithError "Server error: URI malformed" ∧
    redirectWithError "Server error: URI malformed" ≠
      redirectWithError "Authentication session expired or invalid" := by
  decide

/-- C6 (amended): the callback handler checks its validation
conditions in the specified order, each an exit point masking all
later checks — provider error, then absent code, then absent state,
then absent correlation cookie (SessionExpired), then state
comparison (StateMismatch), then missing credentials
(ConfigurationError) — with the one amendment that a present cookie
whose value fails percent-decoding exits through the catch-all
server-error redirect rather than SessionExpired (a present cookie
that decodes but holds no matching state falls through to the state
comparison); no exit before the credentials check issues any
outbound call, and the six exit responses are pairwise distinct. -/
theorem callback_validation_order (ev : CbEvent) (env : Env)
    (tu : TokenUpstream) (cu : ConnUpstream) (now : Nat) :
    (truthyO ev.queryError = true →
      xeroCallbackHandler ev env tu cu now =
        (redirectWithError ("Authentication error: " ++
           jsOrStr ev.queryErrorDescription (jsOrStr ev.queryError "")), [])) ∧
    (truthyO ev.queryError = false → truthyO ev.queryCode = false →
      xeroCallbackHandler ev env tu cu now =
        (redirectWithError "No authorization code received from Xero", [])) ∧
    (truthyO ev.queryError = false → truthyO ev.queryCode = true →
      truthyO ev.queryState = false →
      xeroCallbackHandler ev env tu cu now =
        (redirectWithError "Invalid authentication request (missing state)", [])) ∧
    (truthyO ev.queryError = false → truthyO ev.queryCode = true →
      truthyO ev.queryState = true →
      truthyO (lookupFirst (cookiePairs (jsOrStr ev.cookieHeader "").data)
        "xero_auth") = false →
      xeroCallbackHandler ev env tu cu now =
        (redirectWithError "Authentication session expired or invalid", [])) ∧
    (truthyO ev.queryError = false → truthyO ev.queryCode = true →
      truthyO ev.queryState = true →
      truthyO (lookupFirst (cookiePairs (jsOrStr ev.cookieHeader "").data)
        "xero_auth") = true →
      decURI (jsOrStr (lookupFirst (cookiePairs
        (jsOrStr ev.cookieHeader "").data) "xero_auth") "").data = none →
      xeroCallbackHandler ev env tu cu now =
        (redirectWithError "Server error: URI malformed", [])) ∧
    (∀ d : List Char, truthyO ev.queryError = false →
      truthyO ev.queryCode = true → truthyO ev.queryState = true →
      truthyO (lookupFirst (cookiePairs (jsOrStr ev.cookieHeader "").data)
        "xero_auth") = true →
      decURI (jsOrStr (lookupFirst (cookiePairs
        (jsOrStr ev.cookieHeader "").data) "xero_auth") "").data = some d →
      jsStrictEqStr (jsOrStr ev.queryState "")
        (qsGet (qsPairs d) "state") = false →
      xeroCallbackHandler ev env tu cu now =
        (redirectWithError "Invalid authentication request (state mismatch)", [])) ∧
    (∀ d : List Char, truthyO ev.queryError = false →
      truthyO ev.queryCode = true → truthyO ev.queryState = true →
      truthyO (lookupFirst (cookiePairs (jsOrStr ev.cookieHeader "").data)
        "xero_auth") = true →
      decURI (jsOrStr (lookupFirst (cookiePairs
        (jsOrStr ev.cookieHeader "").data) "xero_auth") "").data = some d →
      jsStrictEqStr (jsOrStr ev.queryState "")
        (qsGet (qsPairs d) "state") = true →
      (truthyO env.clientId && truthyO env.clientSecret) = false →
      xeroCallbackHandler ev env tu cu now =
        (redirectWithError "Server configuration error (missing Xero credentials)", [])) ∧
    List.Pairwise (fun a b => a ≠ b)
      [redirectWithError "No authorization code received from Xero",
       redirectWithError "Invalid authentication request (missing state)",
       redirectWithError "Authentication session expired or invalid",
       redirectWithError "Server error: URI malformed",
       redirectWithError "Invalid authentication request (state mismatch)",
       redirectWithError "Server configuration error (missing Xero credentials)"] := by
  refine ⟨?_, ?_, ?_, ?_, ?_, ?_, ?_, by decide⟩
  · intro h1
    unfold xeroCallbackHandler
    simp [h1]
  · intro h1 h2
    unfold xeroCallbackHandler
    simp [h1, h2]
  · intro h1 h2 h3
    unfold xeroCallbackHandler
    simp [h1, h2, h3]
  · intro h1 h2 h3 h4
    unfold xeroCallbackHandler
    simp [h1, h2, h3, h4]
  · intro h1 h2 h3 h4 h5
    unfold xeroCallbackHandler
    simp [h1, h2, h3, h4, h5]
  · intro d h1 h2 h3 h4 h5 h6
    unfold xeroCallbackHandler
    simp [h1, h2, h3, h4, h5, h6]
  · intro d h1 h2 h3 h4 h5 h6 h7
    unfold xeroCallbackHandler
    simp [h1, h2, h3, h4, h5, h6, h7]

/-- C6 (witness): the ordering theorem applied at concrete inputs: a
provider error together with a missing code exits with the provider
error message, and an absent cookie with code and state present exits
with SessionExpired. -/
theorem callback_validation_order_witness :
    xeroCallbackHandler ⟨some "access_denied", some "user denied", none, none,
        none⟩ ⟨none, none, none⟩ ⟨200, "", none⟩ ⟨200, none⟩ 0 =
      (redirectWithError ("Authentication error: " ++
        jsOrStr (some "user denied") (jsOrStr (some "access_denied") "")), []) ∧
    xeroCallbackHandler ⟨none, none, some "c", some "X", none⟩
        ⟨none, none, none⟩ ⟨200, "", none⟩ ⟨200, none⟩ 0 =
      (redirectWithError "Authentication session expired or invalid", []) :=
  ⟨(callback_validation_order _ _ _ _ _).1 (by decide),
   (callback_validation_order _ _ _ _ _).2.2.2.1 (by decide) (by decide)
     (by decide) (by decide)⟩

/-- C4: the redirect_uri the authorization request builder places in
the provider authorization URL is byte-identical, for every
deployment base URL configuration, to the redirect_uri form field the
callback handler sends to the provider token endpoint: the two
derivations agree on every configuration, and every token-exchange
call the callback handler issues carries exactly that value. -/
theorem redirect_uri_consistency :
    (∀ u : Option String, authRedirectUri u = callbackRedirectUri u) ∧
    (∀ (ev : CbEvent) (env : Env) (tu : TokenUpstream) (cu : ConnUpstream)
        (now : Nat) (ru : String),
      Call.tokenExchange ru ∈ (xeroCallbackHandler ev env tu cu now).2 →
      ru = authRedirectUri env.url) := by
  refine ⟨fun u => rfl, ?_⟩
  intro ev env tu cu now ru hmem
  unfold xeroCallbackHandler at hmem
  repeat' split at hmem
  all_goals simp at hmem
  all_goals exact hmem

/-- C4 (witness): a concrete failed-exchange run issues the token
call with the deployment redirect URI. -/
theorem redirect_uri_consistency_witness :
    "https://app.example/.netlify/functions/xero-callback" =
      authRedirectUri (some "https://app.example") :=
  redirect_uri_consistency.2
    ⟨none, none, some "c", some "X",
     some "xero_auth=state%3DX%26code_verifier%3Dv"⟩
    ⟨some "https://app.example", some "id", some "sec"⟩
    ⟨400, "", none⟩ ⟨200, none⟩ 0
    "https://app.example/.netlify/functions/xero-callback" (by decide)

/-- C7 (counterexample): a POST whose body is not JSON gets a 500
through the catch-all, not the 400 the claim states. -/
theorem refresh_invalid_json_cex :
    (jsonParse "not json").isNone = true ∧
    (xeroRefreshHandler ⟨"POST", some "not json"⟩ ⟨none, some "id", some "sec"⟩
      ⟨200, "", some ⟨"at", "rt", 1800, none⟩⟩ 0).1.statusCode = 500 ∧
    (xeroRefreshHandler ⟨"POST", some "not json"⟩ ⟨none, some "id", some "sec"⟩
      ⟨200, "", some ⟨"at", "rt", 1800, none⟩⟩ 0).1.statusCode ≠ 400 := by
  refine ⟨rfl, rfl, by decide⟩

/-- C7 (amended): the refresh handler returns 405 for every method
other than POST and OPTIONS; for a POST whose body fails to parse as
JSON it returns 500 through the generic catch (not 400) without
calling the token endpoint; for a POST whose body parses but lacks a
truthy refresh_token it returns 400; with a truthy token but missing
credentials it returns 500; and the token endpoint is reached only
when the method is POST, the body parses, the token is truthy and
both credentials are configured. -/
theorem refresh_validation (ev : RefreshEvent) (env : Env)
    (up : TokenUpstream) (now : Nat) :
    (ev.httpMethod ≠ "POST" → ev.httpMethod ≠ "OPTIONS" →
      xeroRefreshHandler ev env up now =
        (⟨405, refreshCors, some "\x7b\"error\":\"Method not allowed\"\x7d"⟩, [])) ∧
    (ev.httpMethod = "POST" → jsonParse (jsOrStr ev.body "\x7b\x7d") = none →
      (xeroRefreshHandler ev env up now).1.statusCode = 500 ∧
      (xeroRefreshHandler ev env up now).2 = []) ∧
    (∀ j fr, ev.httpMethod = "POST" →
      jsonParse (jsOrStr ev.body "\x7b\x7d") = some j →
      jsField j "refresh_token" = fr → fr ≠ FieldRes.thrown →
      truthyF fr = false →
      xeroRefreshHandler ev env up now =
        (⟨400, refreshCors, some "\x7b\"error\":\"Refresh token is required\"\x7d"⟩, [])) ∧
    (∀ j fr, ev.httpMethod = "POST" →
      jsonParse (jsOrStr ev.body "\x7b\x7d") = some j →
      jsField j "refresh_token" = fr → truthyF fr = true →
      (truthyO env.clientId && truthyO env.clientSecret) = false →
      xeroRefreshHandler ev env up now =
        (⟨500, refreshCors, some "\x7b\"error\":\"Missing Xero credentials\"\x7d"⟩, [])) ∧
    ((xeroRefreshHandler ev env up now).2 ≠ [] →
      ev.httpMethod = "POST" ∧
      ∃ j, jsonParse (jsOrStr ev.body "\x7b\x7d") = some j ∧
        truthyF (jsField j "refresh_token") = true ∧
        truthyO env.clientId = true ∧ truthyO env.clientSecret = true) := by
  refine ⟨?_, ?_, ?_, ?_, ?_⟩
  · intro h1 h2
    unfold xeroRefreshHandler
    simp [h1, h2]
  · intro h1 h2
    unfold xeroRefreshHandler
    simp [h1, h2]
  · intro j fr h1 h2 hf hth htr
    unfold xeroRefreshHandler
    cases fr with
    | thrown => exact absurd rfl hth
    | absent => simp [h1, h2, hf, truthyF]
    | val jv =>
      rw [show truthyF (FieldRes.val jv) = jsTruthy jv from rfl] at htr
      simp [h1, h2, hf, truthyF, htr]
  · intro j fr h1 h2 hf htr hcred
    unfold xeroRefreshHandler
    cases fr with
    | thrown => simp [truthyF] at htr
    | absent => simp [truthyF] at htr
    | val jv =>
      rw [show truthyF (FieldRes.val jv) = jsTruthy jv from rfl] at htr
      simp [h1, h2, hf, truthyF, htr, hcred]
  · intro hne
    by_cases hopt : ev.httpMethod = "OPTIONS"
    · exfalso
      apply hne
      unfold xeroRefreshHandler
      simp [hopt]
    by_cases hpost : ev.httpMethod = "POST"
    case neg =>
      exfalso
      apply hne
      unfold xeroRefreshHandler
      simp [hopt, hpost]
    cases hp : jsonParse (jsOrStr ev.body "\x7b\x7d") with
    | none =>
      exfalso
      apply hne
      unfold xeroRefreshHandler
      simp [hopt, hpost, hp]
    | some j =>
      cases hf : jsField j "refresh_token" with
      | thrown =>
        exfalso
        apply hne
        unfold xeroRefreshHandler
        simp [hopt, hpost, hp, hf]
      | absent =>
        exfalso
        apply hne
        unfold xeroRefreshHandler
        simp [hopt, hpost, hp, hf, truthyF]
      | val jv =>
        by_cases ht : jsTruthy jv = true
        · by_cases hcid : truthyO env.clientId = true
          · by_cases hcs : truthyO env.clientSecret = true
            · exact ⟨hpost, j, rfl, by simp [hf, truthyF, ht], hcid, hcs⟩
            · have hcs' : truthyO env.clientSecret = false :=
                Bool.eq_false_iff.mpr hcs
              exfalso
              apply hne
              unfold xeroRefreshHandler
              simp [hopt, hpost, hp, hf, truthyF, ht, hcs']
          · have hcid' : truthyO env.clientId = false :=
              Bool.eq_false_iff.mpr hcid
            exfalso
            apply hne
            unfold xeroRefreshHandler
            simp [hopt, hpost, hp, hf, truthyF, ht, hcid']
        · have ht' : jsTruthy jv = false := Bool.eq_false_iff.mpr ht
          exfalso
          apply hne
          unfold xeroRefreshHandler
          simp [hopt, hpost, hp, hf, truthyF, ht']

/-- C7 (witness): the amended theorem at concrete inputs: a GET gets
405, and a parsable body with an empty refresh_token gets 400. -/
theorem refresh_validation_witness :
    xeroRefreshHandler ⟨"GET", none⟩ ⟨none, some "id", some "sec"⟩
        ⟨200, "", none⟩ 0 =
      (⟨405, refreshCors, some "\x7b\"error\":\"Method not allowed\"\x7d"⟩, []) ∧
    xeroRefreshHandler ⟨"POST", some "\x7b\"refresh_token\":\"\"\x7d"⟩
        ⟨none, some "id", some "sec"⟩ ⟨200, "", none⟩ 0 =
      (⟨400, refreshCors, some "\x7b\"error\":\"Refresh token is required\"\x7d"⟩, []) :=
  ⟨(refresh_validation _ _ _ _).1 (by decide) (by decide),
   (refresh_validation _ _ _ _).2.2.1 (Json.jobj [("refresh_token", Json.jstr "")])
     (FieldRes.val (Json.jstr "")) rfl rfl rfl (by intro h; cases h) rfl⟩

/-- C8: whenever the refresh handler has a valid request and the
upstream token endpoint answers with a non-2xx status, the handler
returns that same status with the upstream body carried verbatim as
the details field of the diagnostic envelope — never a generic
500. -/
theorem refresh_upstream_passthrough (ev : RefreshEvent) (env : Env)
    (up : TokenUpstream) (now : Nat) (j : Json)
    (hm : ev.httpMethod = "POST")
    (hp : jsonParse (jsOrStr ev.body "\x7b\x7d") = some j)
    (ht : truthyF (jsField j "refresh_token") = true)
    (hcid : truthyO env.clientId = true)
    (hcs : truthyO env.clientSecret = true)
    (hst : okStatus up.status = false) :
    xeroRefreshHandler ev env up now =
      (⟨up.status, refreshCors, some (refreshErrEnvelope up.text)⟩,
       [Call.refreshExchange]) := by
  unfold xeroRefreshHandler
  cases hf : jsField j "refresh_token" with
  | thrown => rw [hf] at ht; simp [truthyF] at ht
  | absent => rw [hf] at ht; simp [truthyF] at ht
  | val jv =>
    rw [hf] at ht
    rw [show truthyF (FieldRes.val jv) = jsTruthy jv from rfl] at ht
    simp [hm, hp, hf, truthyF, ht, hcid, hcs, hst]

/-- C8 (witness): an upstream 400 with a concrete error body passes
through as a 400 with that body in the envelope. -/
theorem refresh_upstream_passthrough_witness :
    xeroRefreshHandler ⟨"POST", some "\x7b\"refresh_token\":\"rt\"\x7d"⟩
      ⟨none, some "id", some "sec"⟩ ⟨400, "upstream-error-body", none⟩ 0 =
      (⟨400, refreshCors, some (refreshErrEnvelope "upstream-error-body")⟩,
       [Call.refreshExchange]) :=
  refresh_upstream_passthrough _ _ _ _
    (Json.jobj [("refresh_token", Json.jstr "rt")]) rfl rfl rfl
    (by decide) (by decide) (by decide)

/-- C9: a callback run that reaches the success return selects the
first element of the provider connections list as active tenant with
no reordering — for a non-empty list the active tenant id and name
are the head fields — and for the empty list the active tenant id is
null and the handler still redirects with auth=success, the tenant id
parameter empty and the tenants parameter the empty array. -/
theorem tenant_selection_first (ev : CbEvent) (env : Env) (tu : TokenUpstream)
    (cu : ConnUpstream) (now : Nat) (d : List Char) (td : TokenData)
    (cs : List Conn)
    (he : truthyO ev.queryError = false)
    (hc : truthyO ev.queryCode = true)
    (hs : truthyO ev.queryState = true)
    (hk : truthyO (lookupFirst (cookiePairs (jsOrStr ev.cookieHeader "").data)
      "xero_auth") = true)
    (hd : decURI (jsOrStr (lookupFirst (cookiePairs
      (jsOrStr ev.cookieHeader "").data) "xero_auth") "").data = some d)
    (hm : jsStrictEqStr (jsOrStr ev.queryState "")
      (qsGet (qsPairs d) "state") = true)
    (hcred : (truthyO env.clientId && truthyO env.clientSecret) = true)
    (hts : okStatus tu.status = true)
    (htj : tu.json = some td)
    (hus : okStatus cu.status = true)
    (huj : cu.json = some cs) :
    (xeroCallbackHandler ev env tu cu now).1 = successResponse now td cs ∧
    locationOf (xeroCallbackHandler ev env tu cu now).1 =
      some (successLocation now td cs) ∧
    (∀ c rest, cs = c :: rest →
      selTenantId cs = some c.tenantId ∧ selTenantName cs = c.tenantName) ∧
    (cs = [] → selTenantId cs = none ∧
      successLocation now td cs =
        "/?auth=success&tenantName=Unknown%20Organization&tenantId=&multipleOrgs=false&tenants=%5B%5D&tokens=" ++
          encURI (tokensJson now td)) := by
  have h1 : (xeroCallbackHandler ev env tu cu now).1 = successResponse now td cs := by
    unfold xeroCallbackHandler
    simp [he, hc, hs, hk, hd, hm, hcred, hts, htj, hus, huj]
  refine ⟨h1, ?_, ?_, ?_⟩
  · rw [h1]
    exact locationOf_success _ _ _
  · intro c rest hEq
    subst hEq
    simp [selTenantId, selTenantName]
  · intro hEq
    subst hEq
    refine ⟨rfl, ?_⟩
    unfold successLocation
    exact congrArg (fun s => s ++ encURI (tokensJson now td)) (by decide)

/-- C9 (witness): with connections [A, B] the active tenant resolves
to A; with [] the handler still produces the success response and a
null tenant id. -/
theorem tenant_selection_first_witness :
    (xeroCallbackHandler ⟨none, none, some "c", some "X",
        some "xero_auth=state%3DX%26code_verifier%3Dv"⟩
      ⟨none, some "id", some "sec"⟩ ⟨200, "", some ⟨"at", "rt", 1800, none⟩⟩
      ⟨200, some [⟨"A", some "Org A"⟩, ⟨"B", none⟩]⟩ 0).1 =
      successResponse 0 ⟨"at", "rt", 1800, none⟩
        [⟨"A", some "Org A"⟩, ⟨"B", none⟩] ∧
    selTenantId [⟨"A", some "Org A"⟩, ⟨"B", none⟩] = some "A" ∧
    (xeroCallbackHandler ⟨none, none, some "c", some "X",
        some "xero_auth=state%3DX%26code_verifier%3Dv"⟩
      ⟨none, some "id", some "sec"⟩ ⟨200, "", some ⟨"at", "rt", 1800, none⟩⟩
      ⟨200, some []⟩ 0).1 = successResponse 0 ⟨"at", "rt", 1800, none⟩ [] ∧
    selTenantId [] = none :=
  ⟨(tenant_selection_first _ _ _ _ _ "state=X&code_verifier=v".data _ _
      (by decide) (by decide) (by decide) (by decide) (by decide) (by decide)
      (by decide) (by decide) rfl (by decide) rfl).1,
   ((tenant_selection_first ⟨none, none, some "c", some "X",
        some "xero_auth=state%3DX%26code_verifier%3Dv"⟩
      ⟨none, some "id", some "sec"⟩ ⟨200, "", some ⟨"at", "rt", 1800, none⟩⟩
      ⟨200, some [⟨"A", some "Org A"⟩, ⟨"B", none⟩]⟩ 0
      "state=X&code_verifier=v".data ⟨"at", "rt", 1800, none⟩ _
      (by decide) (by decide) (by decide) (by decide) (by decide) (by decide)
      (by decide) (by decide) rfl (by decide) rfl).2.2.1
      ⟨"A", some "Org A"⟩ [⟨"B", none⟩] rfl).1,
   (tenant_selection_first _ _ _ _ _ "state=X&code_verifier=v".data _ _
      (by decide) (by decide) (by decide) (by decide) (by decide) (by decide)
      (by decide) (by decide) rfl (by decide) rfl).1,
   ((tenant_selection_first ⟨none, none, some "c", some "X",
        some "xero_auth=state%3DX%26code_verifier%3Dv"⟩
      ⟨none, some "id", some "sec"⟩ ⟨200, "", some ⟨"at", "rt", 1800, none⟩⟩
      ⟨200, some []⟩ 0
      "state=X&code_verifier=v".data ⟨"at", "rt", 1800, none⟩ []
      (by decide) (by decide) (by decide) (by decide) (by decide) (by decide)
      (by decide) (by decide) rfl (by decide) rfl).2.2.2 rfl).1⟩

/-- C10: on the success path the callback response carries no
Set-Cookie header at all — its headers are exactly Location and
Cache-Control, so the constructed session cookies are never attached
— and consequently the xero_authenticated flag the connections
endpoint requires for a 200 is never set by this handler: without
that cookie the connections handler never answers 200. -/
theorem callback_success_no_set_cookie (ev : CbEvent) (env : Env)
    (tu : TokenUpstream) (cu : ConnUpstream) (now : Nat) (d : List Char)
    (td : TokenData) (cs : List Conn)
    (he : truthyO ev.queryError = false)
    (hc : truthyO ev.queryCode = true)
    (hs : truthyO ev.queryState = true)
    (hk : truthyO (lookupFirst (cookiePairs (jsOrStr ev.cookieHeader "").data)
      "xero_auth") = true)
    (hd : decURI (jsOrStr (lookupFirst (cookiePairs
      (jsOrStr ev.cookieHeader "").data) "xero_auth") "").data = some d)
    (hm : jsStrictEqStr (jsOrStr ev.queryState "")
      (qsGet (qsPairs d) "state") = true)
    (hcred : (truthyO env.clientId && truthyO env.clientSecret) = true)
    (hts : okStatus tu.status = true)
    (htj : tu.json = some td)
    (hus : okStatus cu.status = true)
    (huj : cu.json = some cs) :
    ((xeroCallbackHandler ev env tu cu now).1.headers.map Prod.fst =
      ["Location", "Cache-Control"]) ∧
    ("Set-Cookie" ∉ (xeroCallbackHandler ev env tu cu now).1.headers.map
      Prod.fst) ∧
    (∀ (m : String) (ch : Option String),
      lookupFirst (cookiePairs (jsOrStr ch "").data) "xero_authenticated" ≠
        some "true" →
      (xeroConnectionsHandler m ch).statusCode ≠ 200) := by
  have h1 : (xeroCallbackHandler ev env tu cu now).1 = successResponse now td cs := by
    unfold xeroCallbackHandler
    simp [he, hc, hs, hk, hd, hm, hcred, hts, htj, hus, huj]
  refine ⟨?_, ?_, ?_⟩
  · rw [h1]
    rfl
  · rw [h1]
    simp [successResponse]
  · intro m ch hauth
    unfold xeroConnectionsHandler
    by_cases hopt : m = "OPTIONS"
    · simp [hopt]
    · simp [hopt, hauth]

/-- C10 (witness): the theorem at a concrete success run, and the
connections handler at a cookieless request. -/
theorem callback_success_no_set_cookie_witness :
    ((xeroCallbackHandler ⟨none, none, some "c", some "X",
        some "xero_auth=state%3DX%26code_verifier%3Dv"⟩
      ⟨none, some "id", some "sec"⟩ ⟨200, "", some ⟨"at", "rt", 1800, none⟩⟩
      ⟨200, some [⟨"A", some "Org A"⟩]⟩ 0).1.headers.map Prod.fst =
      ["Location", "Cache-Control"]) ∧
    (xeroConnectionsHandler "GET" none).statusCode ≠ 200 :=
  ⟨(callback_success_no_set_cookie _ _ _ _ _ "state=X&code_verifier=v".data _ _
      (by decide) (by decide) (by decide) (by decide) (by decide) (by decide)
      (by decide) (by decide) rfl (by decide) rfl).1,
   (callback_success_no_set_cookie
      ⟨none, none, some "c", some "X",
       some "xero_auth=state%3DX%26code_verifier%3Dv"⟩
      ⟨none, some "id", some "sec"⟩ ⟨200, "", some ⟨"at", "rt", 1800, none⟩⟩
      ⟨200, some [⟨"A", some "Org A"⟩]⟩ 0
      "state=X&code_verifier=v".data ⟨"at", "rt", 1800, none⟩
      [⟨"A", some "Org A"⟩]
      (by decide) (by decide) (by decide) (by decide) (by decide) (by decide)
      (by decide) (by decide) rfl (by decide) rfl).2.2 "GET" none
      (by decide)⟩

end XeroTooth
